import Mathlib

/-!
Shallow embedding of the session-correlation and report-normalization core of
the EchoEval backend (src/server.py) and proofs about it.

Modelling conventions:
* Webhook payloads are JSON trees (`JVal`).  Numeric payload values are
  modelled as integers (`Int`); floating-point payloads are outside the model,
  which is exact for every integral score value.
* Python dictionaries are modelled as insertion-ordered association lists with
  unique keys; `dict.get` / item assignment / `pop` keep Python's semantics
  (insertion order preserved, assignment to an existing key keeps its
  position, unhashable keys raise `TypeError`).
* Fallible Python expressions run in `Except String`; the uncaught-exception
  path of a handler corresponds to the `Except.error` case.
* `datetime.fromisoformat` is modelled for the timestamp grammar
  `YYYY-MM-DD(T| )HH:MM[:SS[.frac]][±HH:MM]` with calendar validation; naive
  timestamps are interpreted as UTC (the server-local timezone).
-/

/-- JSON-like values as delivered by the webhook transport. -/
inductive JVal where
  | null : JVal
  | bool : Bool → JVal
  | int : Int → JVal
  | str : String → JVal
  | arr : List JVal → JVal
  | obj : List (String × JVal) → JVal

/-- Python truthiness of a JSON value (`bool(v)`). -/
def pyTruthy : JVal → Bool
  | .null => false
  | .bool b => b
  | .int n => n != 0
  | .str s => s != ""
  | .arr xs => !xs.isEmpty
  | .obj fs => !fs.isEmpty

/-- Python equality of a JSON value against a string literal. -/
def pyEqStr : JVal → String → Bool
  | .str s, t => s == t
  | _, _ => false

/-- First binding of a key in an object's field list (JSON objects carry
unique keys, so this is the binding). -/
def assocFind (fs : List (String × JVal)) (k : String) : Option JVal :=
  (fs.find? (fun p => p.1 == k)).map Prod.snd

/-- Python `v.get(k, d)`: field lookup with default on a dict, `AttributeError`
on any non-dict receiver. -/
def pyGet (v : JVal) (k : String) (d : JVal) : Except String JVal :=
  match v with
  | .obj fs => .ok ((assocFind fs k).getD d)
  | _ => .error "AttributeError: get"

/-- Python `list(v.values())`: the values of a dict in insertion order,
`AttributeError` on any non-dict receiver. -/
def pyValues (v : JVal) : Except String (List JVal) :=
  match v with
  | .obj fs => .ok (fs.map Prod.snd)
  | _ => .error "AttributeError: values"

/-- Python `xs[0]` on a list. -/
def listIndex0 (xs : List JVal) : Except String JVal :=
  match xs with
  | [] => .error "IndexError: list index out of range"
  | x :: _ => .ok x

/-- Keys of the kinds Python can hash here (dicts and lists are unhashable). -/
def jHashable : JVal → Bool
  | .obj _ => false
  | .arr _ => false
  | _ => true

/-- Python `==` between two hashable payload values used as dict keys
(`True == 1` holds in Python). -/
def jKeyEq : JVal → JVal → Bool
  | .null, .null => true
  | .bool a, .bool b => a == b
  | .bool a, .int n => (if a then (1 : Int) else 0) == n
  | .int n, .bool b => n == (if b then (1 : Int) else 0)
  | .int a, .int b => a == b
  | .str a, .str b => a == b
  | _, _ => false

/-- Lookup (`dict.get(k)`) in a dict keyed by payload values. -/
def dictGetJ (m : List (JVal × String)) (k : JVal) : Except String (Option String) :=
  if jHashable k then
    .ok ((m.find? (fun p => jKeyEq p.1 k)).map Prod.snd)
  else .error "TypeError: unhashable type"

/-- Item assignment (`m[k] = v`) in a dict keyed by payload values:
an existing key keeps its position, a new key is appended. -/
def dictSetJ (m : List (JVal × String)) (k : JVal) (v : String) :
    Except String (List (JVal × String)) :=
  if jHashable k then
    .ok (if m.any (fun p => jKeyEq p.1 k) then
           m.map (fun p => if jKeyEq p.1 k then (p.1, v) else p)
         else m ++ [(k, v)])
  else .error "TypeError: unhashable type"

/-- Removal (`m.pop(k, None)`) in a dict keyed by payload values. -/
def dictPopJ (m : List (JVal × String)) (k : JVal) :
    Except String (List (JVal × String)) :=
  if jHashable k then .ok (m.filter (fun p => !jKeyEq p.1 k))
  else .error "TypeError: unhashable type"

/-- Lookup in a string-keyed dict (`dict.get(k)`). -/
def dictGetS {α : Type} (m : List (String × α)) (k : String) : Option α :=
  (m.find? (fun p => p.1 == k)).map Prod.snd

/-- Item assignment in a string-keyed dict. -/
def dictSetS {α : Type} (m : List (String × α)) (k : String) (v : α) :
    List (String × α) :=
  if m.any (fun p => p.1 == k) then
    m.map (fun p => if p.1 == k then (p.1, v) else p)
  else m ++ [(k, v)]

/-- Removal (`m.pop(k, None)`) in a string-keyed dict. -/
def dictPopS {α : Type} (m : List (String × α)) (k : String) : List (String × α) :=
  m.filter (fun p => !(p.1 == k))

/-- Lookup in a string-keyed dict with a payload value as the probe key, as in
`assistant_to_session.get(assistant_id)`: unhashable probes raise, non-string
hashable probes simply miss. -/
def dictGetSJ (m : List (String × String)) (k : JVal) : Except String (Option String) :=
  if jHashable k then
    .ok (match k with
         | .str s => dictGetS m s
         | _ => none)
  else .error "TypeError: unhashable type"

/-- Last key of a string-keyed dict in insertion order
(`list(m.keys())[-1]`). -/
def lastKey {α : Type} (m : List (String × α)) : Option String :=
  (m.map Prod.fst).getLast?

/-- Decimal digits of a natural number, least significant first; the first
argument is structural fuel (sufficient whenever `n ≤ fuel`). -/
def decDigitsAux : Nat → Nat → List Nat
  | _, 0 => []
  | 0, _ + 1 => []
  | f + 1, n + 1 => ((n + 1) % 10) :: decDigitsAux f ((n + 1) / 10)

/-- Decimal digits of a natural number, least significant first. -/
def decDigitsLE (n : Nat) : List Nat := decDigitsAux n n

/-- Character for one decimal digit. -/
def digitChar : Nat → Char
  | 0 => '0'
  | 1 => '1'
  | 2 => '2'
  | 3 => '3'
  | 4 => '4'
  | 5 => '5'
  | 6 => '6'
  | 7 => '7'
  | 8 => '8'
  | _ => '9'

/-- Python `str` of a natural number (decimal). -/
def pyNatRepr (n : Nat) : String :=
  if n = 0 then "0" else String.mk ((decDigitsLE n).reverse.map digitChar)

/-- Python `str` of an integer (decimal, `-` sign for negatives). -/
def pyIntRepr (n : Int) : String :=
  if n < 0 then "-" ++ pyNatRepr n.natAbs else pyNatRepr n.natAbs

/-- Single-quote character (used by Python `repr` of strings). -/
def squote : String := String.mk [Char.ofNat 39]

/-- Opening brace character as a string. -/
def lbraceS : String := String.mk [Char.ofNat 123]

/-- Closing brace character as a string. -/
def rbraceS : String := String.mk [Char.ofNat 125]

mutual

/-- Python `repr` of a payload value (quoting of exotic characters inside
strings is not modelled; every claim-relevant value is scalar). -/
def pyReprJ : JVal → String
  | .null => "None"
  | .bool b => if b then "True" else "False"
  | .int n => pyIntRepr n
  | .str s => squote ++ s ++ squote
  | .arr xs => "[" ++ pyReprList xs ++ "]"
  | .obj fs => lbraceS ++ pyReprFields fs ++ rbraceS

/-- Comma-joined `repr` of list elements. -/
def pyReprList : List JVal → String
  | [] => ""
  | [x] => pyReprJ x
  | x :: y :: xs => pyReprJ x ++ ", " ++ pyReprList (y :: xs)

/-- Comma-joined `repr` of dict entries. -/
def pyReprFields : List (String × JVal) → String
  | [] => ""
  | [(k, v)] => squote ++ k ++ squote ++ ": " ++ pyReprJ v
  | (k, v) :: f :: fs =>
      squote ++ k ++ squote ++ ": " ++ pyReprJ v ++ ", " ++ pyReprFields (f :: fs)

end

/-- Python `str` of a payload value. -/
def pyStr : JVal → String
  | .str s => s
  | v => pyReprJ v

/-- Numeric value of a decimal digit character. -/
def digitVal (c : Char) : Nat := c.toNat - 48

/-- Decimal digit test. -/
def isDigitCh (c : Char) : Bool := 48 ≤ c.toNat && c.toNat ≤ 57

/-- Value of a non-empty all-digit character list, most significant first. -/
def parseDecDigits (cs : List Char) : Option Nat :=
  if cs.isEmpty || !(cs.all isDigitCh) then none
  else some (cs.foldl (fun acc c => 10 * acc + digitVal c) 0)

/-- Integer value of an optionally signed decimal literal. -/
def parseSignedDec (cs : List Char) : Option Int :=
  match cs with
  | '-' :: rest => (parseDecDigits rest).map (fun n => -(n : Int))
  | _ => (parseDecDigits cs).map (fun n => (n : Int))

/-- Python `int(v)` (string operand restricted to optionally signed decimal
integer literals; numeric operands convert exactly). -/
def pyInt : JVal → Except String Int
  | .int n => .ok n
  | .bool b => .ok (if b then 1 else 0)
  | .str s =>
      match parseSignedDec s.data with
      | some n => .ok n
      | none => .error "ValueError: invalid literal for int"
  | _ => .error "TypeError: int"

/-- Python `float(v)`, modelled exactly on the integral values the payload
grammar carries; non-numeric operands raise as in Python. -/
def pyFloat : JVal → Except String Int
  | .int n => .ok n
  | .bool b => .ok (if b then 1 else 0)
  | .str s =>
      match parseSignedDec s.data with
      | some n => .ok n
      | none => .error "ValueError: could not convert string to float"
  | _ => .error "TypeError: float"

/-- Character-exact prefix take on strings (Python `s[:n]`; both Python
strings and Lean strings index by code point). -/
def strTake (s : String) (n : Nat) : String := String.mk (s.data.take n)

/-- Python `v[:n]` on a payload value; the model supports the string case
(the claim-relevant one) and raises on the rest. -/
def pySliceStr (v : JVal) (n : Nat) : Except String String :=
  match v with
  | .str s => .ok (strTake s n)
  | _ => .error "TypeError: unsliceable"

/-- Replacement performed by `iso_to_ms` before parsing
(`iso_str.replace('Z', '+00:00')`). -/
def replaceZ (s : String) : String :=
  String.mk ((s.data.map (fun c => if c = 'Z' then "+00:00".data else [c])).flatten)

/-- Gregorian leap-year test. -/
def isLeap (y : Nat) : Bool := (y % 4 == 0 && y % 100 != 0) || y % 400 == 0

/-- Days in a month of the proleptic Gregorian calendar. -/
def daysInMonth (y m : Nat) : Nat :=
  match m with
  | 2 => if isLeap y then 29 else 28
  | 4 => 30
  | 6 => 30
  | 9 => 30
  | 11 => 30
  | _ => 31

/-- Days from the Unix epoch to a civil date (standard civil-calendar
conversion, floor divisions). -/
def daysFromCivil (y m d : Nat) : Int :=
  let yi : Int := if m ≤ 2 then (y : Int) - 1 else (y : Int)
  let era : Int := yi.fdiv 400
  let yoe : Int := yi - era * 400
  let mShift : Int := if 2 < m then (m : Int) - 3 else (m : Int) + 9
  let doy : Int := (153 * mShift + 2).fdiv 5 + (d : Int) - 1
  let doe : Int := yoe * 365 + yoe.fdiv 4 - yoe.fdiv 100 + doy
  era * 146097 + doe - 719468

/-- Two decimal digit characters as a number. -/
def parse2d (a b : Char) : Option Nat :=
  if isDigitCh a && isDigitCh b then some (10 * digitVal a + digitVal b) else none

/-- Four decimal digit characters as a number. -/
def parse4d (a b c d : Char) : Option Nat :=
  if isDigitCh a && isDigitCh b && isDigitCh c && isDigitCh d then
    some (1000 * digitVal a + 100 * digitVal b + 10 * digitVal c + digitVal d)
  else none

/-- Microsecond value of a 1-6 digit fraction block. -/
def padMicro (ds : List Char) : Nat :=
  (ds.foldl (fun a c => 10 * a + digitVal c) 0) * 10 ^ (6 - ds.length)

/-- UTC offset suffix `±HH:MM` in minutes east of UTC. -/
def parseOffsetOnly (cs : List Char) : Option Int :=
  match cs with
  | [sgn, a, b, ':', c, d] =>
      if sgn = '+' || sgn = '-' then do
        let h ← parse2d a b
        let m ← parse2d c d
        if h ≤ 23 && m ≤ 59 then
          let v : Int := (h : Int) * 60 + (m : Int)
          some (if sgn = '-' then -v else v)
        else none
      else none
  | _ => none

/-- Optional fraction then optional offset: microseconds and offset minutes. -/
def parseFracOff (cs : List Char) : Option (Nat × Int) :=
  match cs with
  | [] => some (0, 0)
  | '.' :: rest =>
      let ds := rest.takeWhile isDigitCh
      let rest2 := rest.dropWhile isDigitCh
      if ds.length = 0 || 6 < ds.length then none
      else match rest2 with
        | [] => some (padMicro ds, 0)
        | _ => do
            let off ← parseOffsetOnly rest2
            some (padMicro ds, off)
  | _ => do
      let off ← parseOffsetOnly cs
      some (0, off)

/-- Optional `:SS[.frac]` then optional offset: seconds, microseconds,
offset minutes. -/
def parseSecFracOff (cs : List Char) : Option (Nat × Nat × Int) :=
  match cs with
  | [] => some (0, 0, 0)
  | ':' :: s1 :: s2 :: rest => do
      let s ← parse2d s1 s2
      if s ≤ 59 then do
        let fo ← parseFracOff rest
        some (s, fo.1, fo.2)
      else none
  | _ => do
      let off ← parseOffsetOnly cs
      some (0, 0, off)

/-- Epoch milliseconds of a parsed timestamp (`int(dt.timestamp() * 1000)`;
exact for the post-epoch values the platform emits). -/
def civilToMs (y mo d h mi s micro : Nat) (offMin : Int) : Int :=
  (daysFromCivil y mo d * 86400 + (h : Int) * 3600 + (mi : Int) * 60 + (s : Int)) * 1000
    + ((micro / 1000 : Nat) : Int) - offMin * 60000

/-- Time-of-day part `HH:MM[:SS[.frac]][±HH:MM]` after a parsed date. -/
def parseTimePart (y mo d : Nat) (cs : List Char) : Option Int :=
  match cs with
  | h1 :: h2 :: ':' :: m1 :: m2 :: rest => do
      let h ← parse2d h1 h2
      let mi ← parse2d m1 m2
      if h ≤ 23 && mi ≤ 59 then do
        let sfo ← parseSecFracOff rest
        some (civilToMs y mo d h mi sfo.1 sfo.2.1 sfo.2.2)
      else none
  | _ => none

/-- Model of `datetime.fromisoformat` followed by `int(dt.timestamp() * 1000)`
over the grammar `YYYY-MM-DD[(T| )HH:MM[:SS[.frac]][±HH:MM]]`, with calendar
validation; a naive timestamp is interpreted as UTC (server-local timezone). -/
def parseIso (s : String) : Option Int :=
  match s.data with
  | y1 :: y2 :: y3 :: y4 :: '-' :: mo1 :: mo2 :: '-' :: d1 :: d2 :: rest => do
      let y ← parse4d y1 y2 y3 y4
      let mo ← parse2d mo1 mo2
      let d ← parse2d d1 d2
      if 1 ≤ y && 1 ≤ mo && mo ≤ 12 && 1 ≤ d && d ≤ daysInMonth y mo then
        match rest with
        | [] => some (civilToMs y mo d 0 0 0 0 0)
        | sep :: t =>
            if sep = 'T' || sep = ' ' then parseTimePart y mo d t else none
      else none
  | _ => none

/-- Embedding of `iso_to_ms` (src/server.py lines 339-345): convert a Vapi ISO
timestamp to epoch milliseconds, swallowing every failure as 0. -/
def iso_to_ms (v : JVal) : Int :=
  match v with
  | .str s =>
      match parseIso (replaceZ s) with
      | some ms => ms
      | none => 0
  | _ => 0

/-- Duration computation of the end-of-call branch (src/server.py line 287):
`max(1, (iso_to_ms(end) - iso_to_ms(start)) // 60000) if start and end else 1`. -/
def computeDuration (start end_ : JVal) : Int :=
  if pyTruthy start && pyTruthy end_ then
    max 1 ((iso_to_ms end_ - iso_to_ms start).fdiv 60000)
  else 1

/-- In-memory session record created by `start_session`
(src/server.py lines 204-213). -/
structure Session where
  session_id : String
  role : String
  role_title : String
  candidate : String
  criteria : List String
  assistant_id : String
  user_email : String
  started : String
deriving DecidableEq

/-- Record committed to the persistence collaborator on an end-of-call report
(`db_data`, src/server.py lines 290-309); `overall_score` holds the exact
value of the float for the integral inputs the model carries. -/
structure DbData where
  session_id : String
  user_email : String
  candidate_name : String
  role : String
  duration_minutes : Int
  overall_score : Int
  recommendation : String
  transcript : String
  score_1 : Int
  score_2 : Int
  score_3 : Int
  score_4 : Int
  score_5 : Int
  strength_1 : String
  strength_2 : String
  strength_3 : String
  improvement_1 : String
  improvement_2 : String
deriving DecidableEq

/-- The process-wide mutable maps (src/server.py lines 91-93): the Session
Store and its two index mappings. -/
structure ServerState where
  sessions : List (String × Session)
  call_to_session : List (JVal × String)
  assistant_to_session : List (String × String)

/-- Status payload of the webhook endpoint: `{"status": "ok"}` or
`{"status": "error", "message": msg}`. -/
inductive WebhookResp where
  | ok : WebhookResp
  | error : String → WebhookResp
deriving DecidableEq

/-- Message extraction of the dispatcher (src/server.py line 237):
`payload.get("message", {})`. -/
def getMessage (payload : JVal) : Except String JVal :=
  pyGet payload "message" (.obj [])

/-- Event-type extraction of the dispatcher (src/server.py line 238):
`message.get("type") or payload.get("type")`. -/
def getEvent (payload message : JVal) : Except String JVal := do
  let t ← pyGet message "type" .null
  if pyTruthy t then pure t else pyGet payload "type" .null

/-- Structured-score extraction of the end-of-call branch (src/server.py
lines 270-282): prefer a non-empty `artifact.structuredOutputs`, taking the
first entry's `result`; otherwise fall back to `analysis.structuredData`;
otherwise the empty dict. -/
def extractStructured (message : JVal) : Except String JVal := do
  let artifact ← pyGet message "artifact" (.obj [])
  let structured_outputs ← pyGet artifact "structuredOutputs" (.obj [])
  if pyTruthy structured_outputs then do
    let vals ← pyValues structured_outputs
    let first_output ← listIndex0 vals
    pyGet first_output "result" (.obj [])
  else do
    let analysis ← pyGet message "analysis" (.obj [])
    pyGet analysis "structuredData" (.obj [])

/-- Session resolution of the end-of-call branch (src/server.py line 259):
`call_to_session.get(call_id) or (list(sessions.keys())[-1] if sessions else
None)`. -/
def resolveSession (st : ServerState) (call_id : JVal) : Except String (Option String) := do
  let linked ← dictGetJ st.call_to_session call_id
  match linked with
  | some s => if s == "" then pure (lastKey st.sessions) else pure (some s)
  | none => pure (lastKey st.sessions)

/-- Construction of the committed record (`db_data`, src/server.py
lines 290-309), evaluated in source order so failures surface identically. -/
def buildDbData (session : Session) (session_id : String) (transcript : JVal)
    (structured : JVal) (duration_min : Int) : Except String DbData := do
  let overallJ ← pyGet structured "overall" (.int 0)
  let overall ← pyFloat overallJ
  let recJ ← pyGet structured "rec" (.str "N/A")
  let transcriptS ← pySliceStr transcript 3000
  let s1J ← pyGet structured "s1" (.int 0)
  let s1 ← pyInt s1J
  let s2J ← pyGet structured "s2" (.int 0)
  let s2 ← pyInt s2J
  let s3J ← pyGet structured "s3" (.int 0)
  let s3 ← pyInt s3J
  let s4J ← pyGet structured "s4" (.int 0)
  let s4 ← pyInt s4J
  let s5J ← pyGet structured "s5" (.int 0)
  let s5 ← pyInt s5J
  let str1J ← pyGet structured "str1" (.str "N/A")
  let str2J ← pyGet structured "str2" (.str "N/A")
  let str3J ← pyGet structured "str3" (.str "N/A")
  let imp1J ← pyGet structured "imp1" (.str "N/A")
  let imp2J ← pyGet structured "imp2" (.str "N/A")
  pure {
    session_id := session_id
    user_email := session.user_email
    candidate_name := session.candidate
    role := session.role_title
    duration_minutes := duration_min
    overall_score := overall
    recommendation := strTake (pyStr recJ) 500
    transcript := transcriptS
    score_1 := s1
    score_2 := s2
    score_3 := s3
    score_4 := s4
    score_5 := s5
    strength_1 := strTake (pyStr str1J) 500
    strength_2 := strTake (pyStr str2J) 500
    strength_3 := strTake (pyStr str3J) 500
    improvement_1 := strTake (pyStr imp1J) 500
    improvement_2 := strTake (pyStr imp2J) 500 }

/-- Body of the webhook dispatcher (src/server.py lines 236-333); the
`Except.error` case is an uncaught exception reaching the outer handler.
`insert` is the persistence collaborator's `insert(record).execute()`. -/
def vapi_webhook_body (insert : DbData → Except String Unit) (payload : JVal)
    (st : ServerState) : Except String (WebhookResp × ServerState) := do
  let message ← getMessage payload
  let event ← getEvent payload message
  if pyEqStr event "assistant-request" then do
    let call ← pyGet message "call" (.obj [])
    let call_id ← pyGet call "id" .null
    let aid ← pyGet message "assistantId" .null
    let assistant_id ←
      if pyTruthy aid then pure aid
      else do
        let a ← pyGet message "assistant" (.obj [])
        pyGet a "id" .null
    let sid? ← dictGetSJ st.assistant_to_session assistant_id
    match sid? with
    | some session_id =>
        if session_id == "" then pure (.ok, st)
        else do
          let c' ← dictSetJ st.call_to_session call_id session_id
          pure (.ok, { st with call_to_session := c' })
    | none => pure (.ok, st)
  else if pyEqStr event "end-of-call-report" then do
    let call_data ← pyGet message "call" (.obj [])
    let call_id ← pyGet call_data "id" .null
    let sid? ← resolveSession st call_id
    match sid? with
    | none => pure (.error "session not found", st)
    | some session_id =>
        if session_id == "" then pure (.error "session not found", st)
        else
          match dictGetS st.sessions session_id with
          | none => pure (.error "session not found", st)
          | some session => do
              let transcript ← pyGet message "transcript" (.str "No transcript available")
              let structured ← extractStructured message
              let start ← pyGet call_data "startedAt" .null
              let end_ ← pyGet call_data "endedAt" .null
              let duration_min := computeDuration start end_
              let db_data ← buildDbData session session_id transcript structured duration_min
              match insert db_data with
              | .error e => pure (.error e, st)
              | .ok _ => do
                  let c' ← dictPopJ st.call_to_session call_id
                  pure (.ok, { st with
                                sessions := dictPopS st.sessions session_id,
                                call_to_session := c' })
  else
    pure (.ok, st)

/-- Embedding of the webhook endpoint `vapi_webhook` (src/server.py
lines 233-337): the boundary try/except converts every uncaught exception
into the structured error acknowledgment.  In the source every raise happens
before any state mutation of the taken path, so the pre-call state is the
correct state to pair with the error. -/
def vapi_webhook (insert : DbData → Except String Unit) (payload : JVal)
    (st : ServerState) : WebhookResp × ServerState :=
  match vapi_webhook_body insert payload st with
  | .ok r => r
  | .error e => (.error e, st)

/-- Static role configuration entry (src/server.py lines 99-155); the
assistant identifier comes from the environment and may be absent. -/
structure RoleDef where
  title : String
  description : String
  assistant_id : Option String
  criteria : List String
  scenario : String
deriving DecidableEq

/-- The role registry `ROLES` (src/server.py lines 99-155), parameterized by
the environment that supplies per-role assistant identifiers. -/
def ROLES (env : String → Option String) : List (String × RoleDef) :=
  [ ("project_manager",
      { title := "Project Manager"
        description := "Project delivery and team management evaluation"
        assistant_id := env "ASSISTANT_ID_PROJECT_MANAGER"
        criteria := ["Problem Solving", "Leadership", "Communication",
                     "Accountability", "Planning"]
        scenario := "We" ++ squote ++ "re 3 months behind schedule and 40% over budget on the Bangalore project. What happened and what" ++ squote ++ "s your plan?" }),
    ("team_lead",
      { title := "Team Lead"
        description := "Technical leadership and team management"
        assistant_id := env "ASSISTANT_ID_TEAM_LEAD"
        criteria := ["Mentoring", "Technical Decisions", "Communication",
                     "Conflict Resolution", "Process"]
        scenario := "Team velocity dropped 35% and two senior developers resigned. What" ++ squote ++ "s happening?" }),
    ("product_owner",
      { title := "Product Owner"
        description := "Product strategy and stakeholder management"
        assistant_id := env "ASSISTANT_ID_PRODUCT_OWNER"
        criteria := ["Strategy", "Data-Driven", "Stakeholders", "User Focus",
                     "Prioritization"]
        scenario := "Last 3 features failed adoption targets and churn is up 15%. Explain your strategy." }),
    ("sales_manager",
      { title := "Sales Manager"
        description := "Sales performance and team coaching"
        assistant_id := env "ASSISTANT_ID_SALES_MANAGER"
        criteria := ["Sales Skills", "Coaching", "Accounts", "Forecasting",
                     "Pressure"]
        scenario := "Missed quota by 30%, pipeline at 1.5x instead of 3x, three accounts at risk. What" ++ squote ++ "s your plan?" }) ]

/-- Session-start request (`SessionRequest`, src/server.py lines 56-59);
the candidate-name length bounds are enforced by the request model before the
handler runs and are modelled as the first guard of `start_session`. -/
structure SessionRequest where
  role : String
  candidate_name : String
  user_email : String
deriving DecidableEq

/-- Response of `start_session` (src/server.py lines 224-230). -/
structure StartResponse where
  success : Bool
  sessionId : String
  publicKey : String
  assistantId : String
  scenario : String
deriving DecidableEq

/-- An `HTTPException(status, detail)` raised by `start_session`. -/
structure HttpErr where
  status : Int
  detail : String
deriving DecidableEq

/-- Embedding of the `start_session` endpoint (src/server.py lines 184-230).
`now_ms` is `int(datetime.now().timestamp() * 1000)` and `now_iso` is
`datetime.now().isoformat()` at the time of the call. -/
def start_session (roles : List (String × RoleDef)) (publicKey : String)
    (now_ms : Nat) (now_iso : String) (req : SessionRequest) (st : ServerState) :
    Except HttpErr (StartResponse × ServerState) :=
  if req.candidate_name.length < 1 || 100 < req.candidate_name.length then
    .error { status := 422, detail := "validation error" }
  else
    match dictGetS roles req.role with
    | none => .error { status := 400, detail := "Invalid role" }
    | some role =>
        match role.assistant_id with
        | none => .error { status := 503, detail := "Assistant not configured" }
        | some assistant_id =>
            if assistant_id == "" then
              .error { status := 503, detail := "Assistant not configured" }
            else if !(req.user_email.data.contains '@') then
              .error { status := 400, detail := "Invalid email address" }
            else
              let session_id := "session_" ++ req.role ++ "_" ++ pyNatRepr now_ms
              let sess : Session :=
                { session_id := session_id
                  role := req.role
                  role_title := role.title
                  candidate := req.candidate_name
                  criteria := role.criteria
                  assistant_id := assistant_id
                  user_email := req.user_email
                  started := now_iso }
              .ok ({ success := true
                     sessionId := session_id
                     publicKey := publicKey
                     assistantId := assistant_id
                     scenario := role.scenario },
                   { st with
                      sessions := dictSetS st.sessions session_id sess
                      assistant_to_session :=
                        dictSetS st.assistant_to_session assistant_id session_id })

/-! Helper lemmas shared by the claim proofs. -/

/-- Truncation leaves `min n length` characters. -/
theorem strTake_length (s : String) (n : Nat) :
    (strTake s n).length = min n s.length := by
  have h : (strTake s n).length = (s.data.take n).length := rfl
  rw [h, List.length_take]
  rfl

/-- A value that compares equal to a string literal under Python `==` is that
string. -/
theorem pyEqStr_eq (v : JVal) (t : String) (h : pyEqStr v t = true) : v = .str t := by
  cases v <;> simp [pyEqStr] at h ⊢
  exact h

/-- After removal, a string-keyed lookup misses. -/
theorem dictGetS_dictPopS {α : Type} (m : List (String × α)) (k : String) :
    dictGetS (dictPopS m k) k = none := by
  have hfind : (dictPopS m k).find? (fun p => p.1 == k) = none := by
    rw [List.find?_eq_none]
    intro x hx
    have hq := List.of_mem_filter hx
    simp only [Bool.not_eq_true'] at hq
    simp [hq]
  simp [dictGetS, hfind]

/-- A successful payload-keyed lookup implies the probe key was hashable. -/
theorem jHashable_of_dictGetJ_ok (m : List (JVal × String)) (k : JVal)
    (r : Option String) (h : dictGetJ m k = .ok r) : jHashable k = true := by
  by_cases hh : jHashable k
  · exact hh
  · simp [dictGetJ, hh] at h

/-- After removal with a hashable key, a payload-keyed lookup misses. -/
theorem dictGetJ_after_pop (m : List (JVal × String)) (k : JVal)
    (hh : jHashable k = true) :
    ∃ m2, dictPopJ m k = .ok m2 ∧ dictGetJ m2 k = .ok none := by
  refine ⟨m.filter (fun p => !jKeyEq p.1 k), by simp [dictPopJ, hh], ?_⟩
  simp only [dictGetJ, hh, if_true]
  have : (m.filter (fun p => !jKeyEq p.1 k)).find? (fun p => jKeyEq p.1 k) = none := by
    rw [List.find?_eq_none]
    intro x hx
    have := List.of_mem_filter hx
    simp at this
    simp [this]
  simp [this]

/-- Value of a little-endian decimal digit list. -/
def ofDigitsLE (ds : List Nat) : Nat := ds.foldr (fun d a => d + 10 * a) 0

/-- The fuelled digit expansion is correct whenever the fuel suffices. -/
theorem decDigitsAux_val (f : Nat) : ∀ n, n ≤ f → ofDigitsLE (decDigitsAux f n) = n := by
  induction f with
  | zero =>
      intro n h
      interval_cases n
      rfl
  | succ f ih =>
      intro n h
      match n with
      | 0 => rfl
      | m + 1 =>
          have hlt : (m + 1) / 10 < m + 1 := Nat.div_lt_self (Nat.succ_pos m) (by norm_num)
          have hle : (m + 1) / 10 ≤ f := by omega
          have hrec := ih ((m + 1) / 10) hle
          simp only [decDigitsAux, ofDigitsLE, List.foldr_cons] at *
          rw [hrec]
          omega

/-- Every expanded digit is below 10. -/
theorem decDigitsAux_lt (f : Nat) : ∀ n d, d ∈ decDigitsAux f n → d < 10 := by
  induction f with
  | zero =>
      intro n d hd
      match n with
      | 0 => simp [decDigitsAux] at hd
      | m + 1 => simp [decDigitsAux] at hd
  | succ f ih =>
      intro n d hd
      match n with
      | 0 => simp [decDigitsAux] at hd
      | m + 1 =>
          simp only [decDigitsAux, List.mem_cons] at hd
          rcases hd with h | h
      
          · omega
          · exact ih _ _ h

/-- Digit characters identify digits below 10. -/
theorem digitChar_inj (a b : Nat) (ha : a < 10) (hb : b < 10)
    (h : digitChar a = digitChar b) : a = b := by
  interval_cases a <;> interval_cases b <;> revert h <;> decide

/-- No digit character is an underscore. -/
theorem digitChar_ne_underscore (d : Nat) : digitChar d ≠ '_' := by
  unfold digitChar
  split <;> decide

/-- Digit-character images determine digit lists below 10. -/
theorem map_digitChar_inj : ∀ (l1 l2 : List Nat), (∀ d ∈ l1, d < 10) →
    (∀ d ∈ l2, d < 10) → l1.map digitChar = l2.map digitChar → l1 = l2 := by
  intro l1
  induction l1 with
  | nil =>
      intro l2 _ _ h
      cases l2 with
      | nil => rfl
      | cons b t => simp at h
  | cons a t ih =>
      intro l2 h1 h2 h
      cases l2 with
      | nil => simp at h
      | cons b t2 =>
          simp only [List.map_cons, List.cons.injEq] at h
          have hab := digitChar_inj a b (h1 a (by simp)) (h2 b (by simp)) h.1
          have := ih t2 (fun d hd => h1 d (by simp [hd])) (fun d hd => h2 d (by simp [hd])) h.2
          simp [hab, this]

/-- The decimal representation determines the number (data level). -/
theorem pyNatRepr_data_inj (m n : Nat)
    (h : (pyNatRepr m).data = (pyNatRepr n).data) : m = n := by
  have hm := decDigitsAux_val m m (le_refl m)
  have hn := decDigitsAux_val n n (le_refl n)
  by_cases h0m : m = 0 <;> by_cases h0n : n = 0
  · omega
  · exfalso
    simp only [pyNatRepr, h0m, h0n, if_true, if_false] at h
    have h' : List.map digitChar (decDigitsLE n).reverse = ['0'] := h.symm
    cases hrev : (decDigitsLE n).reverse with
    | nil => rw [hrev] at h'; simp at h'
    | cons d t =>
        rw [hrev] at h'
        simp only [List.map_cons, List.cons.injEq] at h'
        have ht : t = [] := by
          have := h'.2
          simpa using this
        have hd10 : d < 10 := by
          have hmem : d ∈ decDigitsLE n := by
            have : d ∈ (decDigitsLE n).reverse := by rw [hrev]; simp
            simpa using this
          exact decDigitsAux_lt n n d hmem
        have hd0 : d = 0 := digitChar_inj d 0 hd10 (by norm_num) h'.1
        have : decDigitsLE n = [d] := by
          have := congrArg List.reverse hrev
          simpa [ht] using this
        rw [show decDigitsLE n = decDigitsAux n n from rfl] at this
        rw [this] at hn
        simp [ofDigitsLE, hd0] at hn
        exact h0n hn.symm
  · exfalso
    simp only [pyNatRepr, h0m, h0n, if_true, if_false] at h
    have h' : List.map digitChar (decDigitsLE m).reverse = ['0'] := h
    cases hrev : (decDigitsLE m).reverse with
    | nil => rw [hrev] at h'; simp at h'
    | cons d t =>
        rw [hrev] at h'
        simp only [List.map_cons, List.cons.injEq] at h'
        have ht : t = [] := by
          have := h'.2
          simpa using this
        have hd10 : d < 10 := by
          have hmem : d ∈ decDigitsLE m := by
            have : d ∈ (decDigitsLE m).reverse := by rw [hrev]; simp
            simpa using this
          exact decDigitsAux_lt m m d hmem
        have hd0 : d = 0 := digitChar_inj d 0 hd10 (by norm_num) h'.1
        have : decDigitsLE m = [d] := by
          have := congrArg List.reverse hrev
          simpa [ht] using this
        rw [show decDigitsLE m = decDigitsAux m m from rfl] at this
        rw [this] at hm
        simp [ofDigitsLE, hd0] at hm
        exact h0m hm.symm
  · simp only [pyNatRepr, h0m, h0n, if_false] at h
    have hmap : (decDigitsLE m).reverse.map digitChar = (decDigitsLE n).reverse.map digitChar := h
    have hrev : (decDigitsLE m).reverse = (decDigitsLE n).reverse := by
      apply map_digitChar_inj _ _ _ _ hmap
      · intro d hd
        exact decDigitsAux_lt m m d (by simpa using hd)
      · intro d hd
        exact decDigitsAux_lt n n d (by simpa using hd)
    have hds : decDigitsLE m = decDigitsLE n := by
      have := congrArg List.reverse hrev
      simpa using this
    rw [show decDigitsLE m = decDigitsAux m m from rfl,
        show decDigitsLE n = decDigitsAux n n from rfl] at hds
    rw [← hm, ← hn, hds]

/-- The decimal representation determines the number. -/
theorem pyNatRepr_inj (m n : Nat) (h : pyNatRepr m = pyNatRepr n) : m = n :=
  pyNatRepr_data_inj m n (congrArg String.data h)

/-- The decimal representation contains no underscore. -/
theorem pyNatRepr_no_underscore (n : Nat) : '_' ∉ (pyNatRepr n).data := by
  by_cases h0 : n = 0
  · simp [pyNatRepr, h0]
  · simp only [pyNatRepr, h0, if_false]
    intro hmem
    have : ∃ d, d ∈ (decDigitsLE n).reverse ∧ digitChar d = '_' := by
      simpa [List.mem_map] using hmem
    obtain ⟨d, _, hd⟩ := this
    exact digitChar_ne_underscore d hd

/-- `takeWhile` consumes a block of satisfying elements up to the first
failing one. -/
theorem takeWhile_append_block {α : Type} (p : α → Bool) (xs : List α) (y : α)
    (ys : List α) (hxs : ∀ x ∈ xs, p x = true) (hy : p y = false) :
    (xs ++ y :: ys).takeWhile p = xs := by
  induction xs with
  | nil => simp [List.takeWhile_cons, hy]
  | cons a t ih =>
      have ha : p a = true := hxs a (by simp)
      simp only [List.cons_append, List.takeWhile_cons, ha, if_true]
      rw [ih (fun x hx => hxs x (by simp [hx]))]

/-- Splitting at a separator absent from both suffixes is unambiguous. -/
theorem append_sep_inj (xs1 xs2 ys1 ys2 : List Char)
    (h1 : '_' ∉ ys1) (h2 : '_' ∉ ys2)
    (h : xs1 ++ '_' :: ys1 = xs2 ++ '_' :: ys2) : xs1 = xs2 ∧ ys1 = ys2 := by
  have hrev := congrArg List.reverse h
  simp only [List.reverse_append, List.reverse_cons] at hrev
  rw [List.append_assoc, List.append_assoc, List.singleton_append,
      List.singleton_append] at hrev
  have hblock1 : (ys1.reverse ++ '_' :: xs1.reverse).takeWhile
      (fun c => !(c == '_')) = ys1.reverse := by
    apply takeWhile_append_block
    · intro x hx
      have : x ∈ ys1 := by simpa using hx
      have : x ≠ '_' := fun he => h1 (he ▸ this)
      simpa using this
    · simp
  have hblock2 : (ys2.reverse ++ '_' :: xs2.reverse).takeWhile
      (fun c => !(c == '_')) = ys2.reverse := by
    apply takeWhile_append_block
    · intro x hx
      have : x ∈ ys2 := by simpa using hx
      have : x ≠ '_' := fun he => h2 (he ▸ this)
      simpa using this
    · simp
  have hys : ys1 = ys2 := by
    have := congrArg (List.takeWhile (fun c => !(c == '_'))) hrev
    rw [hblock1, hblock2] at this
    have := congrArg List.reverse this
    simpa using this
  refine ⟨?_, hys⟩
  rw [hys] at h
  exact List.append_cancel_right h

/-- A generated session identifier determines both the role id and the
millisecond clock reading. -/
theorem sessionId_inj (r1 r2 : String) (m1 m2 : Nat)
    (h : "session_" ++ r1 ++ "_" ++ pyNatRepr m1 =
         "session_" ++ r2 ++ "_" ++ pyNatRepr m2) : r1 = r2 ∧ m1 = m2 := by
  have hd := congrArg String.data h
  simp only [String.data_append, List.append_assoc, List.singleton_append] at hd
  have hd' : r1.data ++ '_' :: (pyNatRepr m1).data =
      r2.data ++ '_' :: (pyNatRepr m2).data := List.append_cancel_left hd
  have hsep := append_sep_inj r1.data r2.data (pyNatRepr m1).data
    (pyNatRepr m2).data (pyNatRepr_no_underscore m1) (pyNatRepr_no_underscore m2) hd'
  refine ⟨?_, pyNatRepr_data_inj m1 m2 hsep.2⟩
  have hs : r1.data = r2.data := hsep.1
  cases r1
  cases r2
  exact congrArg String.mk hs

/-! Concrete fixtures used by witnesses and counterexamples. -/

/-- A concrete in-memory session as `start_session` would create it. -/
def sampleSession : Session :=
  { session_id := "session_project_manager_1000"
    role := "project_manager"
    role_title := "Project Manager"
    candidate := "Alice"
    criteria := ["Problem Solving", "Leadership", "Communication",
                 "Accountability", "Planning"]
    assistant_id := "asst_pm"
    user_email := "alice@example.com"
    started := "2024-01-01T09:55:00" }

/-- A server state holding `sampleSession` with its call link. -/
def sampleState : ServerState :=
  { sessions := [("session_project_manager_1000", sampleSession)]
    call_to_session := [(.str "call-1", "session_project_manager_1000")]
    assistant_to_session := [("asst_pm", "session_project_manager_1000")] }

/-- The empty server state. -/
def emptyState : ServerState :=
  { sessions := [], call_to_session := [], assistant_to_session := [] }

/-- An end-of-call message carrying both structured-score shapes: overall 8
under `artifact.structuredOutputs` and overall 2 under
`analysis.structuredData`. -/
def dualShapeMessage : JVal :=
  .obj [("type", .str "end-of-call-report"),
        ("call", .obj [("id", .str "call-1"),
                       ("startedAt", .str "2024-01-01T10:00:00Z"),
                       ("endedAt", .str "2024-01-01T10:07:30Z")]),
        ("transcript", .str "hello"),
        ("artifact", .obj [("structuredOutputs",
            .obj [("x", .obj [("result", .obj [("overall", .int 8)])])])]),
        ("analysis", .obj [("structuredData", .obj [("overall", .int 2)])])]

/-- A webhook payload wrapping `dualShapeMessage`. -/
def dualShapePayload : JVal := .obj [("message", dualShapeMessage)]

/-- An end-of-call payload whose call identifier is unknown. -/
def unknownCallPayload : JVal :=
  .obj [("message", .obj [("type", .str "end-of-call-report"),
                          ("call", .obj [("id", .str "call-unknown")])])]

/-- An insert stub that always succeeds. -/
def insertOk : DbData → Except String Unit := fun _ => .ok ()

/-- An insert stub that always fails. -/
def insertFail : DbData → Except String Unit := fun _ => .error "db down"

/-! Claim theorems. -/

/-- C1: structured score extraction prefers the nested structured-outputs
collection when it is non-empty, taking the first entry's nested "result"
object (first conjunct, with an arbitrary `analysis.structuredData` present);
otherwise it falls back to the nested `analysis.structuredData` object (second
conjunct); otherwise it treats the scores as empty (third conjunct).  With
both shapes present carrying overall 8 and overall 2, the overall score that
reaches the committed record is 8 (fourth conjunct). -/
theorem c1_structured_extraction_priority
    (k : String) (res analysisData : JVal)
    (firstRest moreOuts msgRest : List (String × JVal)) :
    (extractStructured (JVal.obj
        (("artifact", JVal.obj
            [("structuredOutputs", JVal.obj
              ((k, JVal.obj (("result", res) :: firstRest)) :: moreOuts))]) ::
          ("analysis", JVal.obj [("structuredData", analysisData)]) :: msgRest))
        = .ok res)
    ∧ (extractStructured (JVal.obj
        (("artifact", JVal.obj [("structuredOutputs", JVal.obj [])]) ::
          ("analysis", JVal.obj [("structuredData", analysisData)]) :: msgRest))
        = .ok analysisData)
    ∧ extractStructured (JVal.obj []) = .ok (JVal.obj [])
    ∧ (do
        let s ← extractStructured dualShapeMessage
        let d ← buildDbData sampleSession "s" (JVal.str "t") s 1
        pure d.overall_score) = Except.ok 8 :=
  ⟨rfl, rfl, rfl, rfl⟩

/-- C2 counterexample: the claim that "if either timestamp is missing or
unparseable, duration_minutes is 1" fails when the start timestamp is
unparseable but the end timestamp parses: the parse failure substitutes 0 ms
for the start, so the duration becomes the end timestamp's epoch minutes. -/
theorem c2_duration_counterexample :
    parseIso (replaceZ "garbage") = none
    ∧ computeDuration (.str "garbage") (.str "2024-01-01T10:07:30Z") = 28401727
    ∧ (28401727 : Int) ≠ 1 :=
  ⟨rfl, by decide, by decide⟩

/-- C2 amended: the committed duration is
`max 1 ((m_end - m_start).fdiv 60000)` where `m_x` is the parsed epoch-ms
value of the respective timestamp, or 0 when it fails to parse; a missing
(falsy) timestamp on either side yields 1.  Consequently: when both parse the
duration is the floored, 1-clamped minute difference (first conjunct, giving 7
for the spec's example, sixth conjunct); a missing timestamp gives 1 (second
and third conjuncts); an unparseable end with a post-epoch start gives 1
(fourth conjunct); but an unparseable start with a parseable end gives
`max 1 (m_end.fdiv 60000)` rather than 1 (fifth conjunct). -/
theorem c2_duration_characterization :
    (∀ s e : String, ∀ ps pe : Int, s ≠ "" → e ≠ "" →
       parseIso (replaceZ s) = some ps → parseIso (replaceZ e) = some pe →
       computeDuration (.str s) (.str e) = max 1 ((pe - ps).fdiv 60000))
    ∧ (∀ v : JVal, computeDuration v JVal.null = 1)
    ∧ (∀ v : JVal, computeDuration JVal.null v = 1)
    ∧ (∀ s e : String, ∀ ps : Int, s ≠ "" → e ≠ "" →
       parseIso (replaceZ s) = some ps → 0 ≤ ps → parseIso (replaceZ e) = none →
       computeDuration (.str s) (.str e) = 1)
    ∧ (∀ s e : String, ∀ pe : Int, s ≠ "" → e ≠ "" →
       parseIso (replaceZ s) = none → parseIso (replaceZ e) = some pe →
       computeDuration (.str s) (.str e) = max 1 (pe.fdiv 60000))
    ∧ computeDuration (.str "2024-01-01T10:00:00Z") (.str "2024-01-01T10:07:30Z") = 7 := by
  refine ⟨?_, ?_, ?_, ?_, ?_, by decide⟩
  · intro s e ps pe hs he hps hpe
    simp [computeDuration, pyTruthy, bne_iff_ne, hs, he, iso_to_ms, hps, hpe]
  · intro v
    simp [computeDuration, pyTruthy, Bool.and_false]
  · intro v
    simp [computeDuration, pyTruthy, Bool.false_and]
  · intro s e ps hs he hps hps0 hpe
    have h1 : pyTruthy (.str s) = true := by simp [pyTruthy, bne_iff_ne, hs]
    have h2 : pyTruthy (.str e) = true := by simp [pyTruthy, bne_iff_ne, he]
    have h3 : iso_to_ms (.str s) = ps := by simp [iso_to_ms, hps]
    have h4 : iso_to_ms (.str e) = 0 := by simp [iso_to_ms, hpe]
    unfold computeDuration
    rw [h1, h2, h3, h4]
    simp only [Bool.and_self, if_true]
    rw [Int.fdiv_eq_ediv _ (by norm_num)]
    have hle : (0 - ps) / 60000 ≤ 1 := by omega
    exact max_eq_left hle
  · intro s e pe hs he hps hpe
    simp [computeDuration, pyTruthy, bne_iff_ne, hs, he, iso_to_ms, hps, hpe]

/-- C2 witness: the amended characterization applied to the spec's example
(7 minutes, floored) and to an unparseable end with a parseable start (1). -/
theorem c2_duration_characterization_witness :
    computeDuration (.str "2024-01-01T10:00:00Z") (.str "2024-01-01T10:07:30Z") =
      max 1 (((1704103650000 : Int) - 1704103200000).fdiv 60000)
    ∧ computeDuration (.str "2024-01-01T10:00:00Z") (.str "garbage") = 1 :=
  ⟨c2_duration_characterization.1 "2024-01-01T10:00:00Z" "2024-01-01T10:07:30Z"
      1704103200000 1704103650000 (by decide) (by decide) rfl rfl,
   c2_duration_characterization.2.2.2.1 "2024-01-01T10:00:00Z" "garbage"
      1704103200000 (by decide) (by decide) rfl (by decide) rfl⟩

/-- C3: when an end-of-call report's call identifier has no entry in the
Call-to-Session mapping and the Session Store is non-empty, the resolution
step of the webhook handler (src/server.py line 259) picks the last entry of
the Session Store in insertion (creation) order, i.e. the most recently
created still-open session. -/
theorem c3_fallback_most_recent (st : ServerState) (call_id : JVal)
    (h1 : dictGetJ st.call_to_session call_id = .ok none)
    (h2 : st.sessions ≠ []) :
    ∃ k, lastKey st.sessions = some k ∧ resolveSession st call_id = .ok (some k) := by
  have hmap : st.sessions.map Prod.fst ≠ [] := by
    simpa [List.map_eq_nil_iff] using h2
  obtain ⟨k, hk⟩ : ∃ k, (st.sessions.map Prod.fst).getLast? = some k := by
    cases hl : (st.sessions.map Prod.fst).getLast? with
    | none => exact absurd (List.getLast?_eq_none_iff.mp hl) hmap
    | some k => exact ⟨k, rfl⟩
  have hlast : lastKey st.sessions = some k := hk
  refine ⟨k, hlast, ?_⟩
  simp only [resolveSession, h1, hlast]
  rfl

/-- C3 witness: with two open sessions and an unknown call identifier the
handler resolves to the younger session. -/
theorem c3_fallback_most_recent_witness :
    ∃ k, lastKey
        { sessions := [("session_project_manager_1000", sampleSession),
                       ("session_team_lead_2000",
                        { sampleSession with session_id := "session_team_lead_2000" })],
          call_to_session := [],
          assistant_to_session := [] : ServerState }.sessions = some k
      ∧ resolveSession
          { sessions := [("session_project_manager_1000", sampleSession),
                         ("session_team_lead_2000",
                          { sampleSession with session_id := "session_team_lead_2000" })],
            call_to_session := [],
            assistant_to_session := [] } (.str "call-unknown") = .ok (some k) :=
  c3_fallback_most_recent _ (.str "call-unknown") rfl (by decide)

/-- C4: an end-of-call report whose call identifier is absent from the
Call-to-Session mapping, received while the Session Store is empty, yields
the session-not-found error acknowledgment and leaves the entire state
unchanged, for every persistence collaborator (no insert influences the
outcome, so no persistence write occurs). -/
theorem c4_unknown_call_no_sessions (insert : DbData → Except String Unit)
    (payload : JVal) (st : ServerState) (message ev call_data call_id : JVal)
    (hm : getMessage payload = .ok message)
    (he : getEvent payload message = .ok ev)
    (hev : pyEqStr ev "end-of-call-report" = true)
    (hc : pyGet message "call" (.obj []) = .ok call_data)
    (hid : pyGet call_data "id" .null = .ok call_id)
    (hlink : dictGetJ st.call_to_session call_id = .ok none)
    (hempty : st.sessions = []) :
    vapi_webhook insert payload st = (.error "session not found", st) := by
  have hevs : ev = .str "end-of-call-report" := pyEqStr_eq _ _ hev
  subst hevs
  have hres : resolveSession st call_id = .ok none := by
    simp only [resolveSession, hlink, lastKey, hempty, List.map_nil,
      List.getLast?_nil]
    rfl
  simp [vapi_webhook, vapi_webhook_body, hm, he, hc, hid, hres, pyEqStr,
    Bind.bind, Except.bind, Pure.pure, Except.pure]

/-- C4 witness: concrete unknown-call report against the empty store, with a
persistence stub that would fail if ever consulted. -/
theorem c4_unknown_call_no_sessions_witness :
    vapi_webhook insertFail unknownCallPayload emptyState =
      (.error "session not found", emptyState) :=
  c4_unknown_call_no_sessions insertFail unknownCallPayload emptyState
    _ _ _ _ rfl rfl (by decide) rfl rfl rfl rfl

/-- C10: an end-of-call report whose call identifier is linked to a session
identifier that is no longer in the Session Store (a stale link) yields the
session-not-found error acknowledgment and leaves the state unchanged for
every persistence collaborator; the stale link also pre-empts the
most-recent-session fallback, which is never consulted even when other open
sessions exist (the hypotheses place no constraint on `st.sessions`). -/
theorem c10_stale_link_blocks (insert : DbData → Except String Unit)
    (payload : JVal) (st : ServerState) (message ev call_data call_id : JVal)
    (sid : String)
    (hm : getMessage payload = .ok message)
    (he : getEvent payload message = .ok ev)
    (hev : pyEqStr ev "end-of-call-report" = true)
    (hc : pyGet message "call" (.obj []) = .ok call_data)
    (hid : pyGet call_data "id" .null = .ok call_id)
    (hlink : dictGetJ st.call_to_session call_id = .ok (some sid))
    (hne : sid ≠ "")
    (hmiss : dictGetS st.sessions sid = none) :
    vapi_webhook insert payload st = (.error "session not found", st) := by
  have hevs : ev = .str "end-of-call-report" := pyEqStr_eq _ _ hev
  subst hevs
  have hres : resolveSession st call_id = .ok (some sid) := by
    simp [resolveSession, hlink, hne, Bind.bind, Except.bind, Pure.pure,
      Except.pure]
  simp [vapi_webhook, vapi_webhook_body, hm, he, hc, hid, hres, hne, hmiss,
    pyEqStr, Bind.bind, Except.bind, Pure.pure, Except.pure]

/-- C10 witness: a stale link to a retired session identifier, with another
open session present that is nevertheless not used. -/
theorem c10_stale_link_blocks_witness :
    vapi_webhook insertOk
      (.obj [("message", .obj [("type", .str "end-of-call-report"),
                               ("call", .obj [("id", .str "call-9")])])])
      { sessions := [("session_team_lead_2000",
                      { sampleSession with session_id := "session_team_lead_2000" })],
        call_to_session := [(.str "call-9", "session_gone")],
        assistant_to_session := [] } =
    (.error "session not found",
      { sessions := [("session_team_lead_2000",
                      { sampleSession with session_id := "session_team_lead_2000" })],
        call_to_session := [(.str "call-9", "session_gone")],
        assistant_to_session := [] }) :=
  c10_stale_link_blocks insertOk _ _ _ _ _ _ "session_gone"
    rfl rfl (by decide) rfl rfl rfl (by decide) rfl

/-- C5: when the persistence commit of an end-of-call report fails, the
webhook returns the error status payload carrying the failure message and the
in-memory state is preserved exactly: the resolved session stays in the
Session Store and the Call-to-Session link is not removed. -/
theorem c5_commit_failure_preserves_state (insert : DbData → Except String Unit)
    (payload : JVal) (st : ServerState)
    (message ev call_data call_id transcript structured start end_ : JVal)
    (sid : String) (session : Session) (d : DbData) (msg : String)
    (hm : getMessage payload = .ok message)
    (he : getEvent payload message = .ok ev)
    (hev : pyEqStr ev "end-of-call-report" = true)
    (hc : pyGet message "call" (.obj []) = .ok call_data)
    (hid : pyGet call_data "id" .null = .ok call_id)
    (hres : resolveSession st call_id = .ok (some sid))
    (hne : sid ≠ "")
    (hsess : dictGetS st.sessions sid = some session)
    (ht : pyGet message "transcript" (.str "No transcript available") = .ok transcript)
    (hx : extractStructured message = .ok structured)
    (hst : pyGet call_data "startedAt" .null = .ok start)
    (hen : pyGet call_data "endedAt" .null = .ok end_)
    (hb : buildDbData session sid transcript structured
            (computeDuration start end_) = .ok d)
    (hins : insert d = .error msg) :
    vapi_webhook insert payload st = (.error msg, st) := by
  have hevs : ev = .str "end-of-call-report" := pyEqStr_eq _ _ hev
  subst hevs
  simp [vapi_webhook, vapi_webhook_body, hm, he, hc, hid, hres, hne, hsess,
    ht, hx, hst, hen, hb, hins, pyEqStr, Bind.bind, Except.bind, Pure.pure,
    Except.pure]

/-- C5 witness: the dual-shape report against `sampleState` with a failing
persistence stub returns the failure message and the untouched state. -/
theorem c5_commit_failure_preserves_state_witness :
    vapi_webhook insertFail dualShapePayload sampleState =
      (.error "db down", sampleState) :=
  c5_commit_failure_preserves_state insertFail dualShapePayload sampleState
    _ _ _ _ _ _ _ _ "session_project_manager_1000" sampleSession _ "db down"
    rfl rfl (by decide) rfl rfl rfl (by decide) rfl rfl rfl rfl rfl rfl rfl

/-- C6: when the persistence commit of an end-of-call report succeeds, the
resolved session is removed from the Session Store and the event's call
identifier is removed from the Call-to-Session mapping, so subsequent lookups
for that session identifier or call identifier fail, and the webhook
acknowledges with ok (first part).  This is the only point at which the
webhook handler destroys a session: whenever a dispatch changes the Session
Store at all, the payload's event type was end-of-call-report and the
persistence insert succeeded on the committed record (second part). -/
theorem c6_success_retires_session (insert : DbData → Except String Unit)
    (payload : JVal) (st : ServerState)
    (message ev call_data call_id transcript structured start end_ : JVal)
    (sid : String) (session : Session) (d : DbData)
    (hm : getMessage payload = .ok message)
    (he : getEvent payload message = .ok ev)
    (hev : pyEqStr ev "end-of-call-report" = true)
    (hc : pyGet message "call" (.obj []) = .ok call_data)
    (hid : pyGet call_data "id" .null = .ok call_id)
    (hres : resolveSession st call_id = .ok (some sid))
    (hne : sid ≠ "")
    (hsess : dictGetS st.sessions sid = some session)
    (ht : pyGet message "transcript" (.str "No transcript available") = .ok transcript)
    (hx : extractStructured message = .ok structured)
    (hst : pyGet call_data "startedAt" .null = .ok start)
    (hen : pyGet call_data "endedAt" .null = .ok end_)
    (hb : buildDbData session sid transcript structured
            (computeDuration start end_) = .ok d)
    (hins : insert d = .ok ()) :
    (dictGetS (vapi_webhook insert payload st).2.sessions sid = none
      ∧ dictGetJ (vapi_webhook insert payload st).2.call_to_session call_id = .ok none
      ∧ (vapi_webhook insert payload st).1 = .ok)
    ∧ (∀ (insert2 : DbData → Except String Unit) (payload2 : JVal)
         (st2 : ServerState),
        (vapi_webhook insert2 payload2 st2).2.sessions ≠ st2.sessions →
        ∃ m2 e2 d2, getMessage payload2 = .ok m2 ∧ getEvent payload2 m2 = .ok e2
          ∧ pyEqStr e2 "end-of-call-report" = true ∧ insert2 d2 = .ok ()) := by
  constructor
  · have hevs : ev = .str "end-of-call-report" := pyEqStr_eq _ _ hev
    subst hevs
    have hhash : jHashable call_id = true := by
      cases hg : dictGetJ st.call_to_session call_id with
      | ok v => exact jHashable_of_dictGetJ_ok _ _ _ hg
      | error e =>
          exfalso
          rw [resolveSession] at hres
          simp [hg, Bind.bind, Except.bind] at hres
    obtain ⟨m2, hpop, hget⟩ := dictGetJ_after_pop st.call_to_session call_id hhash
    have hrun : vapi_webhook insert payload st =
        (.ok, { st with sessions := dictPopS st.sessions sid,
                        call_to_session := m2 }) := by
      simp [vapi_webhook, vapi_webhook_body, hm, he, hc, hid, hres, hne, hsess,
        ht, hx, hst, hen, hb, hins, hpop, pyEqStr, Bind.bind, Except.bind,
        Pure.pure, Except.pure]
    refine ⟨?_, ?_, ?_⟩
    · rw [hrun]
      exact dictGetS_dictPopS _ _
    · rw [hrun]
      exact hget
    · rw [hrun]
  · intro insert2 payload2 st2 hchange
    cases hb2 : vapi_webhook_body insert2 payload2 st2 with
    | error e =>
        exfalso
        apply hchange
        simp [vapi_webhook, hb2]
    | ok r =>
        have hrun2 : vapi_webhook insert2 payload2 st2 = r := by
          simp [vapi_webhook, hb2]
        rw [hrun2] at hchange
        rw [vapi_webhook_body] at hb2
        simp only [Bind.bind, Except.bind, Pure.pure, Except.pure] at hb2
        iterate 25 (all_goals (try split at hb2))
        all_goals
          first
          | (simp_all
             done)
          | (exfalso
             injection hb2 with hbr
             rw [← hbr] at hchange
             exact hchange rfl)
          | (exact ⟨_, _, _, by assumption, by assumption, by assumption,
              by assumption⟩)

/-- C6 witness: committing the dual-shape report against `sampleState`
removes the session and its call link, and both lookups then miss. -/
theorem c6_success_retires_session_witness :
    dictGetS (vapi_webhook insertOk dualShapePayload sampleState).2.sessions
        "session_project_manager_1000" = none
    ∧ dictGetJ (vapi_webhook insertOk dualShapePayload sampleState).2.call_to_session
        (.str "call-1") = .ok none
    ∧ (vapi_webhook insertOk dualShapePayload sampleState).1 = .ok :=
  (c6_success_retires_session insertOk dualShapePayload sampleState
    _ _ _ _ _ _ _ _ "session_project_manager_1000" sampleSession _
    rfl rfl (by decide) rfl rfl rfl (by decide) rfl rfl rfl rfl rfl rfl rfl).1

/-- C7: the webhook dispatcher always answers with a status payload — ok or
error with a message (its codomain).  An event type that is neither
assistant-request nor end-of-call-report is acknowledged with the generic ok
and no state change, for every persistence collaborator (first conjunct); and
whenever the dispatch body raises, the boundary converts the exception into
the structured error acknowledgment with the state unchanged instead of
propagating it (second conjunct). -/
theorem c7_dispatcher_totality :
    (∀ (insert : DbData → Except String Unit) (payload : JVal)
       (st : ServerState) (message ev : JVal),
      getMessage payload = .ok message → getEvent payload message = .ok ev →
      pyEqStr ev "assistant-request" = false →
      pyEqStr ev "end-of-call-report" = false →
      vapi_webhook insert payload st = (.ok, st))
    ∧ (∀ (insert : DbData → Except String Unit) (payload : JVal)
         (st : ServerState) (e : String),
        vapi_webhook_body insert payload st = .error e →
        vapi_webhook insert payload st = (.error e, st)) := by
  constructor
  · intro insert payload st message ev hm he har heoc
    simp [vapi_webhook, vapi_webhook_body, hm, he, har, heoc, Bind.bind,
      Except.bind, Pure.pure, Except.pure]
  · intro insert payload st e hbody
    simp [vapi_webhook, hbody]

/-- C7 witness: a status-update event is acknowledged ok without touching the
state, and a non-dict payload raises inside the body and is converted into an
error acknowledgment at the boundary. -/
theorem c7_dispatcher_totality_witness :
    vapi_webhook insertOk
      (.obj [("message", .obj [("type", .str "status-update")])]) sampleState =
      (.ok, sampleState)
    ∧ vapi_webhook insertOk (.arr []) sampleState =
      (.error "AttributeError: get", sampleState) :=
  ⟨c7_dispatcher_totality.1 insertOk
      (.obj [("message", .obj [("type", .str "status-update")])]) sampleState
      _ _ rfl rfl (by decide) (by decide),
   c7_dispatcher_totality.2 insertOk (.arr []) sampleState
      "AttributeError: get" rfl⟩

/-- Environment stub configuring only the project-manager assistant. -/
def envPM : String → Option String :=
  fun k => if k == "ASSISTANT_ID_PROJECT_MANAGER" then some "asst_pm" else none

/-- A valid session-start request for the project-manager role. -/
def reqPM : SessionRequest :=
  { role := "project_manager", candidate_name := "Alice",
    user_email := "alice@example.com" }

/-- A successful `start_session` issues the identifier
`"session_" ++ role ++ "_" ++ <decimal ms>`. -/
theorem start_session_ok_sessionId (roles : List (String × RoleDef))
    (pk : String) (ms : Nat) (iso : String) (req : SessionRequest)
    (st s : ServerState) (r : StartResponse)
    (h : start_session roles pk ms iso req st = .ok (r, s)) :
    r.sessionId = "session_" ++ req.role ++ "_" ++ pyNatRepr ms := by
  unfold start_session at h
  iterate 8 (all_goals (try split at h))
  all_goals try (exact Except.noConfusion h)
  have h' := congrArg (fun x : Except HttpErr (StartResponse × ServerState) =>
      match x with
      | Except.ok p => p.1.sessionId
      | Except.error _ => "") h
  exact h'.symm

/-- C8 counterexample: two `start_session` calls that observe the same
millisecond clock reading (1000) with the same role return the same session
identifier — the identifiers collide, refuting uniqueness under rapid
sequential calls within one millisecond. -/
theorem c8_counterexample_same_millisecond :
    ∃ (r1 r2 : StartResponse) (s1 s2 : ServerState),
      start_session (ROLES envPM) "pk" 1000 "t0" reqPM emptyState = .ok (r1, s1)
      ∧ start_session (ROLES envPM) "pk" 1000 "t1" reqPM s1 = .ok (r2, s2)
      ∧ r1.sessionId = r2.sessionId := by
  exact ⟨_, _, _, _, rfl, rfl, rfl⟩

/-- C8 amended: a successful `start_session` returns the identifier
`"session_" ++ roleId ++ "_" ++ <millisecond reading>`, which contains the
role id; identifiers of two successful calls coincide exactly when the calls
share both the role id and the millisecond clock reading — so identifiers are
unique across calls that differ in role or clock reading, but two calls with
the same role inside one millisecond collide. -/
theorem c8_session_id_uniqueness_amended (roles : List (String × RoleDef))
    (pk : String) (m1 m2 : Nat) (iso1 iso2 : String)
    (req1 req2 : SessionRequest) (st1 st2 s1 s2 : ServerState)
    (r1 r2 : StartResponse)
    (h1 : start_session roles pk m1 iso1 req1 st1 = .ok (r1, s1))
    (h2 : start_session roles pk m2 iso2 req2 st2 = .ok (r2, s2)) :
    r1.sessionId = "session_" ++ req1.role ++ "_" ++ pyNatRepr m1
    ∧ (r1.sessionId = r2.sessionId ↔ (req1.role = req2.role ∧ m1 = m2)) := by
  have e1 := start_session_ok_sessionId roles pk m1 iso1 req1 st1 s1 r1 h1
  have e2 := start_session_ok_sessionId roles pk m2 iso2 req2 st2 s2 r2 h2
  refine ⟨e1, ?_, ?_⟩
  · intro heq
    rw [e1, e2] at heq
    exact sessionId_inj _ _ _ _ heq
  · rintro ⟨hrole, hms⟩
    rw [e1, e2, hrole, hms]

/-- C8 witness: the amended characterization applied to two concrete calls
with the same role and different millisecond readings: the identifier carries
the role id and the two identifiers differ. -/
theorem c8_session_id_uniqueness_amended_witness :
    ∃ (r1 r2 : StartResponse) (s1 s2 : ServerState),
      start_session (ROLES envPM) "pk" 1000 "t0" reqPM emptyState = .ok (r1, s1)
      ∧ start_session (ROLES envPM) "pk" 1001 "t1" reqPM emptyState = .ok (r2, s2)
      ∧ r1.sessionId = "session_" ++ reqPM.role ++ "_" ++ pyNatRepr 1000
      ∧ r1.sessionId ≠ r2.sessionId := by
  refine ⟨_, _, _, _, rfl, rfl, ?_, ?_⟩
  · exact (c8_session_id_uniqueness_amended (ROLES envPM) "pk" 1000 1001
      "t0" "t1" reqPM reqPM emptyState emptyState _ _ _ _ rfl rfl).1
  · intro heq
    have h := (c8_session_id_uniqueness_amended (ROLES envPM) "pk" 1000 1001
      "t0" "t1" reqPM reqPM emptyState emptyState _ _ _ _ rfl rfl).2.mp heq
    omega

/-- A 501-character free-text value. -/
def longText : String := String.mk (List.replicate 501 'a')

/-- A 3001-character transcript. -/
def longTranscript : String := String.mk (List.replicate 3001 'b')

/-- Structured scores whose free-text fields all exceed 500 characters. -/
def longStructured : JVal :=
  .obj [("rec", .str longText), ("str1", .str longText),
        ("str2", .str longText), ("str3", .str longText),
        ("imp1", .str longText), ("imp2", .str longText)]

/-- C9: the committed record truncates each free-text field to its first 500
characters and the transcript to its first 3000 characters (first conjunct:
the exact record produced by `buildDbData`), and whenever an extracted
free-text value exceeds 500 characters — or the transcript exceeds 3000 —
the committed field has exactly 500 (resp. 3000) characters (remaining
conjuncts). -/
theorem c9_truncation (session : Session) (sid ts : String) (structured : JVal)
    (dur : Int) (ovJ recJ s1J s2J s3J s4J s5J st1J st2J st3J im1J im2J : JVal)
    (ov s1v s2v s3v s4v s5v : Int)
    (hov : pyGet structured "overall" (.int 0) = .ok ovJ)
    (hovf : pyFloat ovJ = .ok ov)
    (hrec : pyGet structured "rec" (.str "N/A") = .ok recJ)
    (hs1 : pyGet structured "s1" (.int 0) = .ok s1J)
    (hs1i : pyInt s1J = .ok s1v)
    (hs2 : pyGet structured "s2" (.int 0) = .ok s2J)
    (hs2i : pyInt s2J = .ok s2v)
    (hs3 : pyGet structured "s3" (.int 0) = .ok s3J)
    (hs3i : pyInt s3J = .ok s3v)
    (hs4 : pyGet structured "s4" (.int 0) = .ok s4J)
    (hs4i : pyInt s4J = .ok s4v)
    (hs5 : pyGet structured "s5" (.int 0) = .ok s5J)
    (hs5i : pyInt s5J = .ok s5v)
    (hstr1 : pyGet structured "str1" (.str "N/A") = .ok st1J)
    (hstr2 : pyGet structured "str2" (.str "N/A") = .ok st2J)
    (hstr3 : pyGet structured "str3" (.str "N/A") = .ok st3J)
    (him1 : pyGet structured "imp1" (.str "N/A") = .ok im1J)
    (him2 : pyGet structured "imp2" (.str "N/A") = .ok im2J) :
    buildDbData session sid (.str ts) structured dur = .ok
      { session_id := sid
        user_email := session.user_email
        candidate_name := session.candidate
        role := session.role_title
        duration_minutes := dur
        overall_score := ov
        recommendation := strTake (pyStr recJ) 500
        transcript := strTake ts 3000
        score_1 := s1v
        score_2 := s2v
        score_3 := s3v
        score_4 := s4v
        score_5 := s5v
        strength_1 := strTake (pyStr st1J) 500
        strength_2 := strTake (pyStr st2J) 500
        strength_3 := strTake (pyStr st3J) 500
        improvement_1 := strTake (pyStr im1J) 500
        improvement_2 := strTake (pyStr im2J) 500 }
    ∧ (500 < (pyStr recJ).length → (strTake (pyStr recJ) 500).length = 500)
    ∧ (500 < (pyStr st1J).length → (strTake (pyStr st1J) 500).length = 500)
    ∧ (500 < (pyStr st2J).length → (strTake (pyStr st2J) 500).length = 500)
    ∧ (500 < (pyStr st3J).length → (strTake (pyStr st3J) 500).length = 500)
    ∧ (500 < (pyStr im1J).length → (strTake (pyStr im1J) 500).length = 500)
    ∧ (500 < (pyStr im2J).length → (strTake (pyStr im2J) 500).length = 500)
    ∧ (3000 < ts.length → (strTake ts 3000).length = 3000) := by
  refine ⟨?_, ?_, ?_, ?_, ?_, ?_, ?_, ?_⟩
  · simp [buildDbData, hov, hovf, hrec, hs1, hs1i, hs2, hs2i, hs3, hs3i,
      hs4, hs4i, hs5, hs5i, hstr1, hstr2, hstr3, him1, him2, pySliceStr,
      Bind.bind, Except.bind, Pure.pure, Except.pure]
  all_goals
    intro hlen
    rw [strTake_length]
    omega

/-- C9 witness: with every free-text field 501 characters long and a
3001-character transcript, the committed fields come out at exactly 500 and
3000 characters. -/
theorem c9_truncation_witness :
    500 < (pyStr (.str longText)).length
    ∧ (strTake (pyStr (.str longText)) 500).length = 500
    ∧ 3000 < longTranscript.length
    ∧ (strTake longTranscript 3000).length = 3000 := by
  have hl1 : (pyStr (.str longText)).length = 501 := by
    show (List.replicate 501 'a').length = 501
    rw [List.length_replicate]
  have hl2 : longTranscript.length = 3001 := by
    show (List.replicate 3001 'b').length = 3001
    rw [List.length_replicate]
  have h := c9_truncation sampleSession "sid" longTranscript longStructured 1
    (.int 0) (.str longText) (.int 0) (.int 0) (.int 0) (.int 0) (.int 0)
    (.str longText) (.str longText) (.str longText) (.str longText)
    (.str longText) 0 0 0 0 0 0
    rfl rfl rfl rfl rfl rfl rfl rfl rfl rfl rfl rfl rfl rfl rfl rfl rfl rfl
  refine ⟨by omega, ?_, by omega, ?_⟩
  · exact h.2.1 (by omega)
  · exact h.2.2.2.2.2.2.2 (by omega)
